import Mathlib

/-!
Verification of the manim_video_generation pipeline.

The repository converts a PDF into a narrated summary video.  We give a
shallow embedding of the orchestration logic of `video_generator.py`
(the pipeline driver `generate_summary_video`, the compositor
`combine_video_with_audio_sync`, the assembler `stitch_videos`, and the
inline JSON-recovery parse) and of `veo_gen.py` (the closing-clip
generator with its Manim fallback).  External effects (the renderer, the
voice service, the file system, the generative-video API) are modelled
as oracle parameters; durations are exact rationals.
-/

namespace ManimVideo

/-- A clip specification, one element of the `clips` array of the parsed
video configuration (`type`, `code`, `voice_over`; `voice_over` is the
empty string when absent, matching Python falsiness of `.get`). -/
structure ClipSpec where
  type : String
  code : String
  voice_over : String
deriving DecidableEq

/-- Outcome of `await generate_voice(...)` for one clip: the call either
raises an exception or returns a value `audio_result` (the empty string
standing for a Python-falsy result). -/
inductive VoiceOutcome where
  | raises : VoiceOutcome
  | returns (audio_result : String) : VoiceOutcome
deriving DecidableEq

/-- Oracles for the external effects the driver performs: the voice
service per clip index, the compositor's returned path (it returns its
third argument on success and its first on an internal exception, see
`combine_video_with_audio_sync`), `os.path.exists`, and the result of
`generate_veo_thank_you_clip` (`none` covering both an exception and a
falsy return). -/
structure DriverEnv where
  voice : Nat → VoiceOutcome
  combine : String → String → String → String
  pathExists : String → Bool
  thankYou : Option String

/-- `f"{output_dir}/audio_{i}.wav"` with `output_dir = "clips"`. -/
def audioPath (i : Nat) : String := "clips/audio_" ++ toString i ++ ".wav"

/-- `f"{output_dir}/final_{i}.mp4"` with `output_dir = "clips"`. -/
def finalPath (i : Nat) : String := "clips/final_" ++ toString i ++ ".mp4"

/-- The path appended to `final_clips` for the `i`-th rendered clip
(`video_generator.py` lines 285-309): with non-empty narration text the
driver asks the voice service; if it returns a non-empty path that
exists on disk, the compositor's result is used, otherwise the silent
`video_path` is kept; any exception also falls back to `video_path`. -/
def clipEntry (env : DriverEnv) (i : Nat) (cfg : ClipSpec) (video_path : String) : String :=
  if cfg.voice_over ≠ "" then
    match env.voice i with
    | .raises => video_path
    | .returns audio_result =>
      if audio_result ≠ "" ∧ env.pathExists audio_result then
        env.combine video_path (audioPath i) (finalPath i)
      else video_path
  else video_path

/-- The mutable state of the per-clip loop of `generate_summary_video`:
the accumulated `final_clips` list and the two counters. -/
structure LoopResult where
  final_clips : List String
  successful_clips : Nat
  failed_clips : Nat
deriving DecidableEq

/-- The per-clip loop of `generate_summary_video`
(`for i, (clip_config, video_path) in enumerate(zip(clips, video_paths))`,
lines 283-312): a clip with a non-empty video path contributes exactly
one entry to `final_clips` and one success, a clip with an empty path
one failure.  `i` is the enumeration index of the first pair. -/
def processFrom (env : DriverEnv) : Nat → List (ClipSpec × String) → LoopResult
  | _, [] => ⟨[], 0, 0⟩
  | i, (cfg, video_path) :: rest =>
    let r := processFrom env (i + 1) rest
    if video_path ≠ "" then
      ⟨clipEntry env i cfg video_path :: r.final_clips, r.successful_clips + 1, r.failed_clips⟩
    else
      ⟨r.final_clips, r.successful_clips, r.failed_clips + 1⟩

/-- `stitch_videos` (`video_generator.py` lines 85-145) at the level of
file paths: keep the input paths that exist on disk, in order; raise
`ValueError("No valid video clips found")` when none do; when
`add_thank_you` is set and the closing-clip generator yields a truthy
path that exists, append it at the end.  The returned list is the
ordered list of segments concatenated into the output file. -/
def stitch_videos (env : DriverEnv) (video_paths : List String) (add_thank_you : Bool) :
    Except String (List String) :=
  let clips := video_paths.filter env.pathExists
  if clips.isEmpty then .error "No valid video clips found"
  else
    let withEnding :=
      if add_thank_you then
        match env.thankYou with
        | some p => if p ≠ "" ∧ env.pathExists p then clips ++ [p] else clips
        | none => clips
      else clips
    .ok withEnding

/-- `max_clips = min(len(clips), 4); clips = clips[:max_clips]`
(`video_generator.py` lines 266-267). -/
def truncateClips (clips0 : List ClipSpec) : List ClipSpec :=
  clips0.take (min clips0.length 4)

/-- The run summary returned by `generate_summary_video` (lines 323-331),
together with the ordered segment list of the final concatenated video. -/
structure RunSummary where
  video_path : String
  segments : List String
  total_clips : Nat
  successful_clips : Nat
  failed_clips : Nat
  success_rate : ℚ
deriving DecidableEq

/-- The pipeline driver `generate_summary_video` from the parsed clip
list onward (`video_generator.py` lines 261-331): reject an empty clip
list, truncate to the first `min(k, 4)` clips, render them (`render`
models `generate_manim_clips`; an empty string is a failed render), run
the per-clip loop, fail when nothing survived, stitch, and report the
summary.  `success_rate` mirrors
`successful_clips / len(clips) if clips else 0`. -/
def generate_summary_video (env : DriverEnv) (render : List ClipSpec → List String)
    (clips0 : List ClipSpec) : Except String RunSummary :=
  if clips0.isEmpty then .error "No clips generated from PDF"
  else
    let clips := truncateClips clips0
    let video_paths := render clips
    let r := processFrom env 0 (clips.zip video_paths)
    if r.final_clips.isEmpty then .error "No clips were successfully generated"
    else
      match stitch_videos env r.final_clips true with
      | .error e => .error e
      | .ok segs =>
        .ok { video_path := "summary_video.mp4"
              segments := segs
              total_clips := clips.length
              successful_clips := r.successful_clips
              failed_clips := r.failed_clips
              success_rate :=
                if clips.isEmpty then 0 else (r.successful_clips : ℚ) / (clips.length : ℚ) }

/-- All per-clip entries the loop would produce, one per zipped pair in
order, whether or not the clip's render succeeded. -/
def allClipEntries (env : DriverEnv) (pairs : List (ClipSpec × String)) : List String :=
  pairs.enum.map fun p => clipEntry env p.1 p.2.1 p.2.2

/-! ### The configuration parse (`video_generator.py` lines 250-259)

The driver first tries `json.loads` on the whole response text; on a
`JSONDecodeError` it searches for `r'\x7b.*\x7d'` with `re.DOTALL`
(greedy, hence from the first opening brace to the last closing brace of
the text) and parses the matched span; a failed parse of that span
raises an uncaught `JSONDecodeError`, and an absent match raises
`ValueError("Could not parse video configuration")`.  `json.loads` is an
external library; we model it by a JSON parser for the subset the
configuration uses (objects, arrays, escape-free strings, integers,
`true`/`false`/`null`, whitespace), requiring the whole input to be
consumed. -/

/-- JSON values, as far as the pipeline's configuration needs them. -/
inductive Json where
  | null : Json
  | bool (b : Bool) : Json
  | num (n : Int) : Json
  | str (s : String) : Json
  | arr (elements : List Json) : Json
  | obj (members : List (String × Json)) : Json

/-- Drop leading JSON whitespace. -/
def skipWs : List Char → List Char
  | [] => []
  | c :: rest => if c = ' ' ∨ c = '\n' ∨ c = '\t' ∨ c = '\r' then skipWs rest else c :: rest

/-- Read the characters of a string literal up to its closing quote
(escape sequences are outside the modelled subset). -/
def parseStrChars : List Char → Option (List Char × List Char)
  | [] => none
  | c :: rest =>
    if c = '"' then some ([], rest)
    else if c = '\\' then none
    else (parseStrChars rest).map fun p => (c :: p.1, p.2)

/-- Read a non-empty run of decimal digits as a natural number. -/
def parseDigits (cs : List Char) : Option (Nat × List Char) :=
  let ds := cs.takeWhile Char.isDigit
  if ds.isEmpty then none
  else some (ds.foldl (fun a c => a * 10 + (c.toNat - 48)) 0, cs.dropWhile Char.isDigit)

mutual

/-- Parse one JSON value, returning it with the unconsumed remainder. -/
def parseVal : Nat → List Char → Option (Json × List Char)
  | 0, _ => none
  | Nat.succ fuel, cs =>
    match skipWs cs with
    | [] => none
    | c :: rest =>
      if c = '"' then (parseStrChars rest).map fun p => (Json.str ⟨p.1⟩, p.2)
      else if c = '{' then parseObjRest fuel rest
      else if c = '[' then parseArrRest fuel rest
      else if c = 't' then
        if rest.take 3 = ['r', 'u', 'e'] then some (Json.bool true, rest.drop 3) else none
      else if c = 'f' then
        if rest.take 4 = ['a', 'l', 's', 'e'] then some (Json.bool false, rest.drop 4) else none
      else if c = 'n' then
        if rest.take 3 = ['u', 'l', 'l'] then some (Json.null, rest.drop 3) else none
      else if c = '-' then (parseDigits rest).map fun p => (Json.num (-(p.1 : Int)), p.2)
      else if c.isDigit then (parseDigits (c :: rest)).map fun p => (Json.num (p.1 : Int), p.2)
      else none

/-- Parse the remainder of an object after its opening brace. -/
def parseObjRest : Nat → List Char → Option (Json × List Char)
  | 0, _ => none
  | Nat.succ fuel, cs =>
    match skipWs cs with
    | '}' :: rest => some (Json.obj [], rest)
    | cs2 => (parseMembers fuel cs2).map fun p => (Json.obj p.1, p.2)

/-- Parse one or more `"key": value` members, consuming the closing brace. -/
def parseMembers : Nat → List Char → Option (List (String × Json) × List Char)
  | 0, _ => none
  | Nat.succ fuel, cs =>
    match skipWs cs with
    | '"' :: rest =>
      match parseStrChars rest with
      | none => none
      | some (key, rest2) =>
        match skipWs rest2 with
        | ':' :: rest3 =>
          match parseVal fuel rest3 with
          | none => none
          | some (v, rest4) =>
            match skipWs rest4 with
            | ',' :: rest5 => (parseMembers fuel rest5).map fun p => ((⟨key⟩, v) :: p.1, p.2)
            | '}' :: rest5 => some ([(⟨key⟩, v)], rest5)
            | _ => none
        | _ => none
    | _ => none

/-- Parse the remainder of an array after its opening bracket. -/
def parseArrRest : Nat → List Char → Option (Json × List Char)
  | 0, _ => none
  | Nat.succ fuel, cs =>
    match skipWs cs with
    | ']' :: rest => some (Json.arr [], rest)
    | cs2 => (parseElems fuel cs2).map fun p => (Json.arr p.1, p.2)

/-- Parse one or more array elements, consuming the closing bracket. -/
def parseElems : Nat → List Char → Option (List Json × List Char)
  | 0, _ => none
  | Nat.succ fuel, cs =>
    match parseVal fuel cs with
    | none => none
    | some (v, rest) =>
      match skipWs rest with
      | ',' :: rest2 => (parseElems fuel rest2).map fun p => (v :: p.1, p.2)
      | ']' :: rest2 => some ([v], rest2)
      | _ => none

end

/-- Model of `json.loads` on the configuration subset: a parse succeeds
when exactly one value plus trailing whitespace covers the whole text. -/
def json_loads (s : String) : Option Json :=
  match parseVal (s.toList.length + 1) s.toList with
  | some (v, rest) => if skipWs rest = [] then some v else none
  | none => none

/-- The span matched by `re.search(r'\x7b.*\x7d', text, re.DOTALL)`: the
leftmost possible start is the first opening brace, and the greedy `.*`
extends the match to the last closing brace of the whole text; there is
a match exactly when that closing brace lies after that opening brace. -/
def reGreedyBraceSpan (s : String) : Option String :=
  let cs := s.toList
  match cs.findIdx? (fun c => c = '{') with
  | none => none
  | some i =>
    match cs.reverse.findIdx? (fun c => c = '}') with
    | none => none
    | some rj =>
      let j := cs.length - 1 - rj
      if i < j then some ⟨(cs.drop i).take (j - i + 1)⟩ else none

/-- Walk to the closing brace matching depth zero, keeping the span. -/
def spanToClose : Nat → List Char → Option (List Char)
  | _, [] => none
  | depth, c :: rest =>
    let d := if c = '{' then depth + 1 else if c = '}' then depth - 1 else depth
    if d = 0 then some [c]
    else (spanToClose d rest).map fun l => c :: l

/-- Modelled from the spec: "the first top-level `\x7b...\x7d` span" —
the substring running from the first opening brace of the text to the
brace-balanced closing brace matching it.  This is the claimed
behaviour of the fallback extraction; compare `reGreedyBraceSpan`,
which embeds the source's actual greedy regex. -/
def firstTopLevelBraceSpan (s : String) : Option String :=
  let cs := s.toList
  match cs.findIdx? (fun c => c = '{') with
  | none => none
  | some i => (spanToClose 0 (cs.drop i)).map fun l => ⟨l⟩

/-- How the configuration parse of `generate_summary_video` can fail:
an uncaught `json.JSONDecodeError` from the second `json.loads`, or the
explicit `ValueError` when no brace span exists. -/
inductive ConfigParseError where
  | jsonDecodeError : ConfigParseError
  | valueError (msg : String) : ConfigParseError
deriving DecidableEq

/-- The configuration parse of `generate_summary_video`
(`video_generator.py` lines 250-259): direct `json.loads`, then the
greedy regex fallback; a decode failure inside the `except` handler
propagates, and an absent match raises the descriptive `ValueError`. -/
def parse_video_config (config_text : String) : Except ConfigParseError Json :=
  match json_loads config_text with
  | some config => .ok config
  | none =>
    match reGreedyBraceSpan config_text with
    | some span =>
      match json_loads span with
      | some config => .ok config
      | none => .error .jsonDecodeError
    | none => .error (.valueError "Could not parse video configuration")

/-- Modelled from the spec: the parse as claim C2 describes it, with the
fallback extracting the *first top-level* brace span instead of the
greedy regex match.  Used only to compare against `parse_video_config`. -/
def parse_video_config_claimed (config_text : String) : Except ConfigParseError Json :=
  match json_loads config_text with
  | some config => .ok config
  | none =>
    match firstTopLevelBraceSpan config_text with
    | some span =>
      match json_loads span with
      | some config => .ok config
      | none => .error .jsonDecodeError
    | none => .error (.valueError "Could not parse video configuration")

/-! ### The audio/video compositor (`video_generator.py` lines 18-47)

`combine_video_with_audio_sync` opens the video and the audio, extends
the video with a still of its last frame when the audio is longer,
attaches the audio, writes the output, and closes every handle — but
the close calls sit on the success path only: the `except` handler just
prints and returns the original `video_path`.  We model durations as
exact rationals, frame content as a function of time over an abstract
frame type, and the fallible external steps (the two constructor calls
and `write_videofile`) as flags of the environment. -/

/-- A video clip: a duration and the frame shown at each time. -/
structure VideoClip (F : Type) where
  duration : ℚ
  frame : ℚ → F

/-- `clip.get_frame(t)`. -/
def VideoClip.get_frame {F : Type} (c : VideoClip F) (t : ℚ) : F := c.frame t

/-- `ImageClip(frame, duration=d)`: a constant clip. -/
def ImageClip {F : Type} (f : F) (d : ℚ) : VideoClip F := ⟨d, fun _ => f⟩

/-- `concatenate_videoclips([a, b])`: durations add; the second clip's
frames start where the first ends. -/
def concatenate_videoclips2 {F : Type} (a b : VideoClip F) : VideoClip F :=
  ⟨a.duration + b.duration, fun t => if t < a.duration then a.frame t else b.frame (t - a.duration)⟩

/-- Environment of one compositor call: what `VideoFileClip(video_path)`
and `AudioFileClip(audio_path)` would yield, and which of the fallible
external steps raises. -/
structure CombineEnv (F : Type) where
  video : VideoClip F
  audio_duration : ℚ
  openVideoRaises : Bool
  openAudioRaises : Bool
  writeRaises : Bool

/-- The media handles `combine_video_with_audio_sync` can hold open. -/
inductive MediaHandle where
  | video : MediaHandle
  | audio : MediaHandle
  | finalClip : MediaHandle
  | extendedClip : MediaHandle
deriving DecidableEq

/-- Observable outcome of one compositor call: the returned path, the
handles still open when the call returns, and the written output (video
content plus the attached audio duration), if any.  The function is
total: the `except Exception` handler converts every internal exception
into a normal return of `video_path`. -/
structure CombineRun (F : Type) where
  returned_path : String
  open_handles_at_exit : List MediaHandle
  written_output : Option (VideoClip F × ℚ)

/-- `combine_video_with_audio_sync` (`video_generator.py` lines 18-47).
On the success path the output is written and all handles (`video`,
`audio`, `final_video`, and `extended_video` when created) are closed.
When a step raises, control jumps to the `except` handler, which
returns `video_path` with every handle opened so far still open. -/
def combine_video_with_audio_sync {F : Type} (env : CombineEnv F)
    (video_path audio_path output_path : String) : CombineRun F :=
  let _ := audio_path
  if env.openVideoRaises then ⟨video_path, [], none⟩
  else if env.openAudioRaises then ⟨video_path, [.video], none⟩
  else
    let video := env.video
    if env.audio_duration > video.duration then
      let extra_duration := env.audio_duration - video.duration
      let last_frame := video.get_frame (video.duration - 1/100)
      let still_clip := ImageClip last_frame (extra_duration + 1/10)
      let extended_video := concatenate_videoclips2 video still_clip
      let final_video := extended_video
      if env.writeRaises then
        ⟨video_path, [.video, .audio, .finalClip, .extendedClip], none⟩
      else
        ⟨output_path, [], some (final_video, env.audio_duration)⟩
    else
      let final_video := video
      if env.writeRaises then
        ⟨video_path, [.video, .audio, .finalClip], none⟩
      else
        ⟨output_path, [], some (final_video, env.audio_duration)⟩

/-! ### The closing-clip generator (`veo_gen.py`)

`generate_veo_thank_you_clip` uses the Google Veo API only when
`GOOGLE_API_KEY` is set, non-empty, and not the placeholder
`"your_google_api_key_here"`; otherwise (or when the API yields
nothing) it calls `create_fallback_thank_you_clip`, which writes a
temporary Manim source file, shells out to the renderer, and deletes
the temporary file in a `finally` block.  We model the file system as
the list of existing paths. -/

/-- The set of files on disk, threaded through the closing-clip code. -/
structure VeoState where
  files : List String
deriving DecidableEq

/-- Environment of a closing-clip call: the credential, the result of
the Veo API call (`none` covering every failure), the renderer's exit
code, the `.mp4` files found under the output tree afterwards, their
creation times, and `os.path.exists` for the chosen fallback path. -/
structure VeoEnv where
  google_api_key : Option String
  gemini_result : Option String
  manim_returncode : Nat
  found_videos : List String
  ctime : String → Nat
  path_exists : String → Bool

/-- The path of the `tempfile.NamedTemporaryFile(suffix='.py')`. -/
def tempSourcePath : String := "tmp_manim_source.py"

/-- Python's `needle in haystack` on strings: contiguous substring. -/
def hasSub (needle : List Char) : List Char → Bool
  | [] => needle.isEmpty
  | c :: rest => needle.isPrefixOf (c :: rest) || hasSub needle rest

/-- `max(final_videos, key=os.path.getctime)` guarded by the emptiness
check: Python's `max` keeps the first element among ties. -/
def maxByCtime (ctime : String → Nat) : List String → Option String
  | [] => none
  | x :: xs => some ((x :: xs).foldl (fun best c => if ctime c > ctime best then c else best) x)

/-- `create_fallback_thank_you_clip` (`veo_gen.py` lines 36-135): write
the temporary source file, run the renderer; on exit code 0 take the
newest found video whose name does not contain `"partial"`, else none;
the `finally` block deletes the temporary file in every case; a chosen
path that exists is renamed onto `output_path` and returned, anything
else yields `None`. -/
def create_fallback_thank_you_clip (env : VeoEnv) (st : VeoState) (output_path : String) :
    Option String × VeoState :=
  let st1 : VeoState := ⟨tempSourcePath :: st.files⟩
  let fallback_path : Option String :=
    if env.manim_returncode = 0 then
      let final_videos := env.found_videos.filter fun f => !(hasSub "partial".toList f.toList)
      maxByCtime env.ctime final_videos
    else none
  let st2 : VeoState := ⟨st1.files.filter fun f => f ≠ tempSourcePath⟩
  match fallback_path with
  | some p =>
    if env.path_exists p then (some output_path, ⟨output_path :: st2.files.filter fun f => f ≠ p⟩)
    else (none, st2)
  | none => (none, st2)

/-- `generate_veo_thank_you_clip` (`veo_gen.py` lines 8-33): with a
usable credential, try the Veo API and return a truthy result; in every
other case fall back to the Manim-rendered clip. -/
def generate_veo_thank_you_clip (env : VeoEnv) (st : VeoState) (output_path : String) :
    Option String × VeoState :=
  let useVeoApi : Bool :=
    match env.google_api_key with
    | some k => !(k == "") && !(k == "your_google_api_key_here")
    | none => false
  if useVeoApi then
    match env.gemini_result with
    | some result =>
      if result == "" then create_fallback_thank_you_clip env st output_path
      else (some result, st)
    | none => create_fallback_thank_you_clip env st output_path
  else
    create_fallback_thank_you_clip env st output_path

/-! ### Concrete instances used to witness the theorems -/

/-- A driver environment for concrete runs: narration synthesis always
raises, the compositor always fails back to the silent video, every
path exists, the closing-clip generator fails. -/
def demoEnv : DriverEnv :=
  { voice := fun _ => .raises
    combine := fun video_path _ _ => video_path
    pathExists := fun _ => true
    thankYou := none }

/-- A driver environment whose narration synthesis returns a usable
audio file and whose compositor succeeds. -/
def demoEnvVoice : DriverEnv :=
  { voice := fun i => .returns (audioPath i)
    combine := fun _ _ output_path => output_path
    pathExists := fun _ => true
    thankYou := some "clips/thank_you_veo.mp4" }

/-- A five-clip configuration list. -/
def demoClips : List ClipSpec :=
  [⟨"manim", "class Scene1(Scene): pass", "Hello"⟩,
   ⟨"manim", "class Scene2(Scene): pass", ""⟩,
   ⟨"manim", "class Scene3(Scene): pass", "World"⟩,
   ⟨"manim", "class Scene4(Scene): pass", ""⟩,
   ⟨"manim", "class Scene5(Scene): pass", "tail"⟩]

/-- A renderer for which the second clip fails and the rest succeed. -/
def demoRender (clips : List ClipSpec) : List String :=
  (List.range clips.length).map fun i => if i = 1 then "" else "clips/clip_" ++ toString i ++ ".mp4"

/-- A compositor environment: a one-second video, two seconds of audio,
no failing step. -/
def demoCombineEnv : CombineEnv Nat :=
  { video := ⟨1, fun _ => 7⟩
    audio_duration := 2
    openVideoRaises := false
    openAudioRaises := false
    writeRaises := false }

/-- The same call with `write_videofile` raising. -/
def demoCombineEnvWriteRaises : CombineEnv Nat :=
  { demoCombineEnv with writeRaises := true }

/-- A closing-clip environment with no credential configured and a
failing renderer (exit code 1). -/
def demoVeoEnv : VeoEnv :=
  { google_api_key := none
    gemini_result := none
    manim_returncode := 1
    found_videos := ["clips/a_partial.mp4", "clips/SimpleScene.mp4"]
    ctime := fun _ => 5
    path_exists := fun _ => true }

/-- A renderer extensionally irrelevant beyond the truncated list: it
agrees with `demoRender` on lists of length 4 and differs elsewhere. -/
def demoRenderAlt (clips : List ClipSpec) : List String :=
  if clips.length = 5 then [] else demoRender clips

/-- A renderer for which every clip fails (empty paths). -/
def demoRenderFail (clips : List ClipSpec) : List String :=
  clips.map fun _ => ""

/-- A driver environment whose disk is missing the file `"bad"`. -/
def demoEnvSkip : DriverEnv :=
  { voice := fun _ => .raises
    combine := fun video_path _ _ => video_path
    pathExists := fun p => !(p == "bad")
    thankYou := none }

/-! ### Structural lemmas -/

theorem truncateClips_length (clips0 : List ClipSpec) :
    (truncateClips clips0).length = min clips0.length 4 := by
  simp only [truncateClips, List.length_take]
  omega

theorem truncateClips_ne_nil {clips0 : List ClipSpec} (h : clips0 ≠ []) :
    truncateClips clips0 ≠ [] := by
  have h1 : 0 < clips0.length := List.length_pos.mpr h
  have h2 := truncateClips_length clips0
  intro hnil
  rw [hnil, List.length_nil] at h2
  omega

theorem processFrom_final_clips (env : DriverEnv) :
    ∀ (i : Nat) (pairs : List (ClipSpec × String)),
      (processFrom env i pairs).final_clips =
        ((pairs.enumFrom i).filter fun p => p.2.2 != "").map
          fun p => clipEntry env p.1 p.2.1 p.2.2
  | _, [] => rfl
  | i, (cfg, vp) :: rest => by
    by_cases h : vp = "" <;>
      simp [processFrom, List.enumFrom, processFrom_final_clips env (i + 1) rest, h]

theorem processFrom_successful (env : DriverEnv) :
    ∀ (i : Nat) (pairs : List (ClipSpec × String)),
      (processFrom env i pairs).successful_clips = pairs.countP fun p => p.2 != ""
  | _, [] => rfl
  | i, (cfg, vp) :: rest => by
    by_cases h : vp = "" <;>
      simp [processFrom, List.countP_cons, processFrom_successful env (i + 1) rest, h]

theorem processFrom_failed (env : DriverEnv) :
    ∀ (i : Nat) (pairs : List (ClipSpec × String)),
      (processFrom env i pairs).failed_clips = pairs.countP fun p => p.2 == ""
  | _, [] => rfl
  | i, (cfg, vp) :: rest => by
    by_cases h : vp = "" <;>
      simp [processFrom, List.countP_cons, processFrom_failed env (i + 1) rest, h]

theorem processFrom_length (env : DriverEnv) :
    ∀ (i : Nat) (pairs : List (ClipSpec × String)),
      (processFrom env i pairs).final_clips.length = (processFrom env i pairs).successful_clips
  | _, [] => rfl
  | i, (cfg, vp) :: rest => by
    by_cases h : vp = "" <;>
      simp [processFrom, processFrom_length env (i + 1) rest, h]

theorem processFrom_total (env : DriverEnv) :
    ∀ (i : Nat) (pairs : List (ClipSpec × String)),
      (processFrom env i pairs).successful_clips + (processFrom env i pairs).failed_clips =
        pairs.length
  | _, [] => rfl
  | i, (cfg, vp) :: rest => by
    by_cases h : vp = "" <;>
      simp [processFrom, h, ← processFrom_total env (i + 1) rest] <;> omega

theorem stitch_videos_ok_inv (env : DriverEnv) (l : List String) (b : Bool)
    (segs : List String) (h : stitch_videos env l b = .ok segs) :
    ∃ tail, segs = l.filter env.pathExists ++ tail ∧ tail.length ≤ 1 ∧
      ∀ p ∈ tail, env.pathExists p = true := by
  simp only [stitch_videos] at h
  split at h
  · exact absurd h (by simp)
  · rw [Except.ok.injEq] at h
    subst h
    cases b with
    | false => exact ⟨[], by simp, by simp, by simp⟩
    | true =>
      cases hty : env.thankYou with
      | none => exact ⟨[], by simp [hty], by simp, by simp⟩
      | some p =>
        by_cases hp : p ≠ "" ∧ env.pathExists p
        · exact ⟨[p], by simp [hty, hp], by simp, by simp [hp.2]⟩
        · exact ⟨[], by simp [hty, hp], by simp, by simp⟩

theorem stitch_videos_error_of_none (env : DriverEnv) (l : List String) (b : Bool)
    (h : l.filter env.pathExists = []) :
    stitch_videos env l b = .error "No valid video clips found" := by
  unfold stitch_videos
  simp [h]

theorem stitch_videos_ok_of_ne (env : DriverEnv) (l : List String) (b : Bool)
    (h : l.filter env.pathExists ≠ []) :
    ∃ tail, stitch_videos env l b = .ok (l.filter env.pathExists ++ tail) ∧
      tail.length ≤ 1 ∧ ∀ p ∈ tail, env.pathExists p = true := by
  have hc : (l.filter env.pathExists).isEmpty = false := by
    simpa [List.isEmpty_eq_false] using h
  simp only [stitch_videos, hc, Bool.false_eq_true, if_false]
  cases b with
  | false => exact ⟨[], by simp, by simp, by simp⟩
  | true =>
    cases hty : env.thankYou with
    | none => exact ⟨[], by simp, by simp, by simp⟩
    | some p =>
      by_cases hp : p ≠ "" ∧ env.pathExists p
      · exact ⟨[p], by simp [hp], by simp, by simp [hp.2]⟩
      · exact ⟨[], by simp [hp], by simp, by simp⟩

theorem generate_summary_video_ok_inv (env : DriverEnv) (render : List ClipSpec → List String)
    (clips0 : List ClipSpec) (s : RunSummary)
    (h : generate_summary_video env render clips0 = .ok s) :
    s.total_clips = (truncateClips clips0).length ∧
    s.successful_clips =
      (processFrom env 0
        ((truncateClips clips0).zip (render (truncateClips clips0)))).successful_clips ∧
    s.failed_clips =
      (processFrom env 0 ((truncateClips clips0).zip (render (truncateClips clips0)))).failed_clips ∧
    s.success_rate =
      (if (truncateClips clips0).isEmpty then (0 : ℚ)
       else ((processFrom env 0
          ((truncateClips clips0).zip (render (truncateClips clips0)))).successful_clips : ℚ) /
            ((truncateClips clips0).length : ℚ)) ∧
    ∃ tail,
      s.segments =
        ((processFrom env 0
            ((truncateClips clips0).zip (render (truncateClips clips0)))).final_clips.filter
          env.pathExists) ++ tail ∧
      tail.length ≤ 1 ∧ ∀ p ∈ tail, env.pathExists p = true := by
  simp only [generate_summary_video] at h
  split at h
  · exact absurd h (by simp)
  · split at h
    · exact absurd h (by simp)
    · cases hst : stitch_videos env
        (processFrom env 0
          ((truncateClips clips0).zip (render (truncateClips clips0)))).final_clips true with
      | error e => rw [hst] at h; exact absurd h (by simp)
      | ok segs =>
        rw [hst] at h
        simp only [Except.ok.injEq] at h
        obtain ⟨tail, htail, hlen, hmem⟩ :=
          stitch_videos_ok_inv env _ true segs hst
        subst h
        exact ⟨rfl, rfl, rfl, rfl, tail, htail, hlen, hmem⟩

/-- C10: in the pipeline driver, assuming one rendered path per truncated
clip, every clip is classified exactly once: it is counted successful and
contributes one entry to the assembly list exactly when its video path is
non-empty, and is counted failed otherwise; the two counters sum to the
truncated clip count, the assembly list has `successful_clips` entries,
and the reported `success_rate` is `successful_clips` divided by the
truncated clip count. -/
theorem driver_clip_accounting (env : DriverEnv) (render : List ClipSpec → List String)
    (clips0 : List ClipSpec) (pairs : List (ClipSpec × String))
    (h0 : clips0 ≠ [])
    (hpairs : pairs = (truncateClips clips0).zip (render (truncateClips clips0)))
    (hlen : (render (truncateClips clips0)).length = (truncateClips clips0).length) :
    (processFrom env 0 pairs).successful_clips + (processFrom env 0 pairs).failed_clips =
      (truncateClips clips0).length ∧
    (processFrom env 0 pairs).successful_clips = (pairs.countP fun p => p.2 != "") ∧
    (processFrom env 0 pairs).failed_clips = (pairs.countP fun p => p.2 == "") ∧
    (processFrom env 0 pairs).final_clips.length = (processFrom env 0 pairs).successful_clips ∧
    ∀ s, generate_summary_video env render clips0 = .ok s →
      s.success_rate =
        ((processFrom env 0 pairs).successful_clips : ℚ) / ((truncateClips clips0).length : ℚ) := by
  have hplen : pairs.length = (truncateClips clips0).length := by
    rw [hpairs, List.length_zip, hlen, Nat.min_self]
  refine ⟨?_, processFrom_successful env 0 pairs, processFrom_failed env 0 pairs,
    processFrom_length env 0 pairs, ?_⟩
  · rw [processFrom_total env 0 pairs, hplen]
  · intro s hs
    obtain ⟨-, -, -, hrate, -⟩ := generate_summary_video_ok_inv env render clips0 s hs
    have hne : (truncateClips clips0).isEmpty = false := by
      simpa [List.isEmpty_eq_false] using truncateClips_ne_nil h0
    rw [hrate, hne, hpairs]
    simp

/-- Evaluation of C10 on a concrete five-clip run in which the second
render fails: 3 successes, 1 failure, 4 truncated clips. -/
theorem driver_clip_accounting_witness :
    (processFrom demoEnv 0
        ((truncateClips demoClips).zip (demoRender (truncateClips demoClips)))).successful_clips +
      (processFrom demoEnv 0
        ((truncateClips demoClips).zip (demoRender (truncateClips demoClips)))).failed_clips =
      (truncateClips demoClips).length ∧
    (processFrom demoEnv 0
        ((truncateClips demoClips).zip (demoRender (truncateClips demoClips)))).final_clips.length =
      (processFrom demoEnv 0
        ((truncateClips demoClips).zip (demoRender (truncateClips demoClips)))).successful_clips := by
  have h := driver_clip_accounting demoEnv demoRender demoClips
    ((truncateClips demoClips).zip (demoRender (truncateClips demoClips)))
    (by decide) rfl (by rfl)
  exact ⟨h.1, h.2.2.2.1⟩

/-- C1: the driver truncates the parsed clip list to the first
`min(k, 4)` clips before rendering (the renderer only ever sees the
truncated list), and the clips surviving to assembly appear in the final
concatenated video in their original relative order: the main segment
list is exactly an order-preserving selection (a sublist) of the
per-clip entries taken in clip order, with at most the closing clip
appended after them. -/
theorem driver_truncation_and_order (env : DriverEnv) (render : List ClipSpec → List String)
    (clips0 : List ClipSpec) (pairs : List (ClipSpec × String))
    (hpairs : pairs = (truncateClips clips0).zip (render (truncateClips clips0))) :
    (truncateClips clips0).length = min clips0.length 4 ∧
    (∀ render2 : List ClipSpec → List String,
        render2 (truncateClips clips0) = render (truncateClips clips0) →
        generate_summary_video env render2 clips0 = generate_summary_video env render clips0) ∧
    ((processFrom env 0 pairs).final_clips.filter env.pathExists).Sublist
      (allClipEntries env pairs) ∧
    ∀ s, generate_summary_video env render clips0 = .ok s →
      ∃ tail,
        s.segments = ((processFrom env 0 pairs).final_clips.filter env.pathExists) ++ tail ∧
        tail.length ≤ 1 := by
  subst hpairs
  refine ⟨truncateClips_length clips0, ?_, ?_, ?_⟩
  · intro render2 hr2
    simp only [generate_summary_video, hr2]
  · rw [processFrom_final_clips, List.filter_map]
    unfold allClipEntries
    refine List.Sublist.map _ ?_
    have h1 := List.filter_sublist
      (p := fun p : Nat × ClipSpec × String => p.2.2 != "")
      ((((truncateClips clips0).zip (render (truncateClips clips0))).enumFrom 0))
    have h2 := List.filter_sublist
      (p := fun p : Nat × ClipSpec × String => env.pathExists (clipEntry env p.1 p.2.1 p.2.2))
      ((((truncateClips clips0).zip (render (truncateClips clips0))).enumFrom 0).filter
        fun p => p.2.2 != "")
    exact (h2.trans h1)
  · intro s hs
    obtain ⟨-, -, -, -, tail, htail, hlen, -⟩ :=
      generate_summary_video_ok_inv env render clips0 s hs
    exact ⟨tail, htail, hlen⟩

/-- Evaluation of C1 on a concrete five-clip run: the truncated length is
`min 5 4`, the driver result is unchanged under a renderer that agrees on
the truncated list, and the assembled main segments form a sublist of the
per-clip entries in order. -/
theorem driver_truncation_and_order_witness :
    (truncateClips demoClips).length = min demoClips.length 4 ∧
    generate_summary_video demoEnv demoRenderAlt demoClips =
      generate_summary_video demoEnv demoRender demoClips ∧
    ((processFrom demoEnv 0
        ((truncateClips demoClips).zip (demoRender (truncateClips demoClips)))).final_clips.filter
      demoEnv.pathExists).Sublist
      (allClipEntries demoEnv
        ((truncateClips demoClips).zip (demoRender (truncateClips demoClips)))) := by
  have h := driver_truncation_and_order demoEnv demoRender demoClips
    ((truncateClips demoClips).zip (demoRender (truncateClips demoClips))) rfl
  exact ⟨h.1, h.2.1 demoRenderAlt (by rfl), h.2.2.1⟩

/-- C4: if every render failed (all produced paths are empty), zero clips
survive to the assembly stage and the run fails with the explicit raised
error `ValueError("No clips were successfully generated")`, not with an
output file. -/
theorem driver_zero_survivors_error (env : DriverEnv) (render : List ClipSpec → List String)
    (clips0 : List ClipSpec) (h0 : clips0 ≠ [])
    (hall : ∀ p ∈ render (truncateClips clips0), p = "") :
    generate_summary_video env render clips0 = .error "No clips were successfully generated" := by
  have hempty : (processFrom env 0
      ((truncateClips clips0).zip (render (truncateClips clips0)))).final_clips = [] := by
    rw [processFrom_final_clips]
    have hfil : (((truncateClips clips0).zip (render (truncateClips clips0))).enumFrom 0).filter
        (fun p => p.2.2 != "") = [] := by
      rw [List.filter_eq_nil_iff]
      rintro ⟨i, cfg, vp⟩ hmem
      have hpair : (cfg, vp) ∈ (truncateClips clips0).zip (render (truncateClips clips0)) := by
        have hm := List.mem_map_of_mem Prod.snd hmem
        rwa [List.enumFrom_map_snd] at hm
      have hv : vp = "" := hall vp (List.of_mem_zip hpair).2
      simp [hv]
    rw [hfil]
    rfl
  have h0f : clips0.isEmpty = false := List.isEmpty_eq_false.mpr h0
  simp [generate_summary_video, hempty, h0f]

/-- Evaluation of C4: a renderer failing all five demo clips makes the
demo run fail with the explicit error. -/
theorem driver_zero_survivors_error_witness :
    generate_summary_video demoEnv demoRenderFail demoClips =
      .error "No clips were successfully generated" :=
  driver_zero_survivors_error demoEnv demoRenderFail demoClips (by decide)
    (fun p hp => by
      simp only [demoRenderFail, List.mem_map] at hp
      obtain ⟨-, -, h⟩ := hp
      exact h.symm)

/-- C5: a successfully rendered clip whose narration text is empty, or
whose narration synthesis raises, or returns no usable audio file, keeps
its unmodified silent video: the per-clip entry is the clip's own
`video_path`, that path is in `final_clips`, and (when the file exists on
disk) the run completes and includes it in the final assembly. -/
theorem silent_clip_kept (env : DriverEnv) (render : List ClipSpec → List String)
    (clips0 : List ClipSpec) (pairs : List (ClipSpec × String))
    (i : Nat) (cfg : ClipSpec) (path : String)
    (hpairs : pairs = (truncateClips clips0).zip (render (truncateClips clips0)))
    (hget : pairs[i]? = some (cfg, path))
    (hpath : path ≠ "")
    (hexists : env.pathExists path = true)
    (hsilent : cfg.voice_over = "" ∨ env.voice i = .raises ∨
      ∀ res, env.voice i = .returns res → (res = "" ∨ env.pathExists res = false)) :
    clipEntry env i cfg path = path ∧
    path ∈ (processFrom env 0 pairs).final_clips ∧
    ∃ s, generate_summary_video env render clips0 = .ok s ∧ path ∈ s.segments := by
  subst hpairs
  have hentry : clipEntry env i cfg path = path := by
    unfold clipEntry
    rcases hsilent with hempty | hraise | hres
    · simp [hempty]
    · by_cases hvo : cfg.voice_over = "" <;> simp [hvo, hraise]
    · by_cases hvo : cfg.voice_over = ""
      · simp [hvo]
      · rw [if_pos hvo]
        cases hv : env.voice i with
        | raises => rfl
        | returns res =>
          rcases hres res hv with h1 | h1 <;> simp [h1]
  have hmemE : (i, (cfg, path)) ∈
      ((truncateClips clips0).zip (render (truncateClips clips0))).enumFrom 0 := by
    have hg2 : (((truncateClips clips0).zip (render (truncateClips clips0))).enumFrom 0)[i]? =
        some (0 + i, (cfg, path)) := by
      rw [List.getElem?_enumFrom, hget]
      rfl
    have := List.getElem?_mem hg2
    simpa using this
  have hmem : path ∈ (processFrom env 0
      ((truncateClips clips0).zip (render (truncateClips clips0)))).final_clips := by
    rw [processFrom_final_clips]
    refine List.mem_map.mpr ⟨(i, (cfg, path)), ?_, hentry⟩
    refine List.mem_filter.mpr ⟨hmemE, ?_⟩
    simpa using hpath
  refine ⟨hentry, hmem, ?_⟩
  have h0 : clips0 ≠ [] := by
    intro h
    subst h
    simp [truncateClips] at hget
  have hfilne : (processFrom env 0
      ((truncateClips clips0).zip (render (truncateClips clips0)))).final_clips.filter
        env.pathExists ≠ [] := by
    intro hnil
    have : path ∈ ([] : List String) := by
      rw [← hnil]
      exact List.mem_filter.mpr ⟨hmem, hexists⟩
    simp at this
  obtain ⟨tail, hst, -, -⟩ := stitch_videos_ok_of_ne env
    (processFrom env 0
      ((truncateClips clips0).zip (render (truncateClips clips0)))).final_clips true hfilne
  have hc1 : ¬ clips0.isEmpty = true := by simp [h0]
  have hc2 : ¬ (processFrom env 0
      ((truncateClips clips0).zip (render (truncateClips clips0)))).final_clips.isEmpty = true := by
    intro htrue
    exact hfilne (by rw [List.isEmpty_iff.mp htrue]; rfl)
  refine ⟨{ video_path := "summary_video.mp4"
            segments := (processFrom env 0
              ((truncateClips clips0).zip
                (render (truncateClips clips0)))).final_clips.filter env.pathExists ++ tail
            total_clips := (truncateClips clips0).length
            successful_clips := (processFrom env 0
              ((truncateClips clips0).zip (render (truncateClips clips0)))).successful_clips
            failed_clips := (processFrom env 0
              ((truncateClips clips0).zip (render (truncateClips clips0)))).failed_clips
            success_rate :=
              if (truncateClips clips0).isEmpty then 0
              else ((processFrom env 0
                ((truncateClips clips0).zip
                  (render (truncateClips clips0)))).successful_clips : ℚ) /
                  ((truncateClips clips0).length : ℚ) }, ?_, ?_⟩
  · simp only [generate_summary_video]
    rw [if_neg hc1, if_neg hc2, hst]
  · exact List.mem_append_left _ (List.mem_filter.mpr ⟨hmem, hexists⟩)

/-- Evaluation of C5: in the demo run the first clip's narration
synthesis raises, yet its silent video is the loop entry and reaches the
assembly list. -/
theorem silent_clip_kept_witness :
    clipEntry demoEnv 0 ⟨"manim", "class Scene1(Scene): pass", "Hello"⟩ "clips/clip_0.mp4" =
      "clips/clip_0.mp4" ∧
    "clips/clip_0.mp4" ∈ (processFrom demoEnv 0
      ((truncateClips demoClips).zip (demoRender (truncateClips demoClips)))).final_clips := by
  have h := silent_clip_kept demoEnv demoRender demoClips
    ((truncateClips demoClips).zip (demoRender (truncateClips demoClips)))
    0 ⟨"manim", "class Scene1(Scene): pass", "Hello"⟩ "clips/clip_0.mp4"
    rfl (by rfl) (by decide) rfl (Or.inr (Or.inl rfl))
  exact ⟨h.1, h.2.1⟩

/-- C7: the assembler skips a clip path missing from disk rather than
aborting: when at least one input path exists, the stitch succeeds, the
surviving paths (plus at most the closing clip) make up the output in
order, and no missing path occurs in the output; when no path exists,
the stitch fails with `ValueError("No valid video clips found")`. -/
theorem stitch_skips_unreadable (env : DriverEnv) (l : List String) (b : Bool) :
    (l.filter env.pathExists = [] →
      stitch_videos env l b = .error "No valid video clips found") ∧
    (l.filter env.pathExists ≠ [] →
      ∃ segs, stitch_videos env l b = .ok segs ∧
        (∃ tail, segs = l.filter env.pathExists ++ tail ∧ tail.length ≤ 1) ∧
        ∀ p, env.pathExists p = false → p ∉ segs) := by
  refine ⟨stitch_videos_error_of_none env l b, ?_⟩
  intro hne
  obtain ⟨tail, hok, hlen, hmem⟩ := stitch_videos_ok_of_ne env l b hne
  refine ⟨_, hok, ⟨tail, rfl, hlen⟩, ?_⟩
  intro p hp hmemp
  rcases List.mem_append.mp hmemp with h1 | h1
  · have h2 := (List.mem_filter.mp h1).2
    rw [hp] at h2
    exact Bool.false_ne_true h2
  · have h2 := hmem p h1
    rw [hp] at h2
    exact Bool.false_ne_true h2

/-- Evaluation of C7: with `"bad"` missing from disk, a three-path stitch
succeeds without it, and a stitch of only missing paths fails. -/
theorem stitch_skips_unreadable_witness :
    (∃ segs, stitch_videos demoEnvSkip ["clips/a.mp4", "bad", "clips/b.mp4"] true = .ok segs ∧
      "bad" ∉ segs) ∧
    stitch_videos demoEnvSkip ["bad"] true = .error "No valid video clips found" := by
  obtain ⟨segs, hok, -, hskip⟩ :=
    (stitch_skips_unreadable demoEnvSkip ["clips/a.mp4", "bad", "clips/b.mp4"] true).2 (by decide)
  exact ⟨⟨segs, hok, hskip "bad" (by decide)⟩,
    (stitch_skips_unreadable demoEnvSkip ["bad"] true).1 (by decide)⟩

/-- C2, counterexample: on `"x\x7b\x7dy\x7b\x7dz"` the code's greedy regex extracts
`"\x7b\x7dy\x7b\x7d"` (first `\x7b` to last `\x7d`), whose parse fails, so the run
dies with an uncaught JSON decode error — while the claimed behaviour
(extract the *first top-level* span `"\x7b\x7d"` and parse it) succeeds. -/
theorem parse_video_config_greedy_cex :
    parse_video_config "x\x7b\x7dy\x7b\x7dz" = .error .jsonDecodeError ∧
    reGreedyBraceSpan "x\x7b\x7dy\x7b\x7dz" = some "\x7b\x7dy\x7b\x7d" ∧
    firstTopLevelBraceSpan "x\x7b\x7dy\x7b\x7dz" = some "\x7b\x7d" ∧
    json_loads "\x7b\x7d" = some (Json.obj []) ∧
    parse_video_config_claimed "x\x7b\x7dy\x7b\x7dz" = .ok (Json.obj []) ∧
    parse_video_config "x\x7b\x7dy\x7b\x7dz" ≠ parse_video_config_claimed "x\x7b\x7dy\x7b\x7dz" := by
  refine ⟨rfl, rfl, rfl, rfl, rfl, ?_⟩
  intro h
  rw [show parse_video_config "x\x7b\x7dy\x7b\x7dz" = .error .jsonDecodeError from rfl,
    show parse_video_config_claimed "x\x7b\x7dy\x7b\x7dz" = .ok (Json.obj []) from rfl] at h
  exact absurd h (by simp)

/-- C2, amended: the driver first attempts a direct JSON parse; if that
fails it extracts the span from the first opening brace to the *last*
closing brace of the text (the greedy `re.DOTALL` match, which may cover
several objects) and parses that, a parse failure of the extracted span
propagating as a JSON decode error; if no such span exists, the run
fails with the `"Could not parse video configuration"` error. -/
theorem parse_video_config_spec (text : String) :
    (∀ v, json_loads text = some v → parse_video_config text = .ok v) ∧
    (json_loads text = none → ∀ span, reGreedyBraceSpan text = some span →
      parse_video_config text =
        (match json_loads span with
         | some v => .ok v
         | none => .error .jsonDecodeError)) ∧
    (json_loads text = none → reGreedyBraceSpan text = none →
      parse_video_config text = .error (.valueError "Could not parse video configuration")) := by
  refine ⟨?_, ?_, ?_⟩
  · intro v hv
    unfold parse_video_config
    rw [hv]
  · intro hnone span hspan
    unfold parse_video_config
    rw [hnone, hspan]
  · intro hnone hspan
    unfold parse_video_config
    rw [hnone, hspan]

/-- Evaluation of C2 (amended) on concrete texts: a blob with one
embedded object is recovered through the greedy fallback, and a text
with no brace span fails with the descriptive error. -/
theorem parse_video_config_spec_witness :
    parse_video_config "noise \x7b\x7d noise" = .ok (Json.obj []) ∧
    parse_video_config "no braces at all" =
      .error (.valueError "Could not parse video configuration") := by
  constructor
  · exact ((parse_video_config_spec "noise \x7b\x7d noise").2.1 rfl "\x7b\x7d" rfl).trans rfl
  · exact (parse_video_config_spec "no braces at all").2.2 rfl rfl

/-- C3: with no failing external step, when the audio outlasts the video
the written video is extended by exactly `audio_duration -
video_duration` plus the fixed `0.1` guard (so it outlasts the audio and
narration is never cut), the original frames are kept, and the extension
holds the final frame (the one sampled at `duration - 0.01`); when the
video is at least as long as the audio, the video is written unchanged
with the audio attached. -/
theorem combine_extends_video {F : Type} (env : CombineEnv F) (vp ap op : String)
    (hv : env.openVideoRaises = false) (ha : env.openAudioRaises = false)
    (hw : env.writeRaises = false) :
    (env.audio_duration > env.video.duration →
      ∃ out, (combine_video_with_audio_sync env vp ap op).written_output =
          some (out, env.audio_duration) ∧
        out.duration = env.video.duration + ((env.audio_duration - env.video.duration) + 1/10) ∧
        env.audio_duration ≤ out.duration ∧
        (∀ t, t < env.video.duration → out.frame t = env.video.frame t) ∧
        ∀ t, env.video.duration ≤ t →
          out.frame t = env.video.frame (env.video.duration - 1/100)) ∧
    (env.audio_duration ≤ env.video.duration →
      (combine_video_with_audio_sync env vp ap op).written_output =
        some (env.video, env.audio_duration)) := by
  simp only [combine_video_with_audio_sync, hv, ha, hw, Bool.false_eq_true, if_false]
  constructor
  · intro hgt
    rw [if_pos hgt]
    refine ⟨_, rfl, rfl, ?_, ?_, ?_⟩
    · show env.audio_duration ≤
        (concatenate_videoclips2 env.video
          (ImageClip (env.video.get_frame (env.video.duration - 1/100))
            ((env.audio_duration - env.video.duration) + 1/10))).duration
      simp only [concatenate_videoclips2, ImageClip]
      linarith
    · intro t ht
      simp [concatenate_videoclips2, ht]
    · intro t ht
      simp [concatenate_videoclips2, ImageClip, VideoClip.get_frame, not_lt.mpr ht]
  · intro hle
    rw [if_neg (not_lt.mpr hle)]

/-- Evaluation of C3: a one-second video with two seconds of audio is
written with duration `1 + ((2 - 1) + 1/10) = 21/10`. -/
theorem combine_extends_video_witness :
    ∃ out, (combine_video_with_audio_sync demoCombineEnv "v.mp4" "a.wav"
        "final.mp4").written_output = some (out, 2) ∧
      out.duration = 21/10 ∧ (2 : ℚ) ≤ out.duration := by
  obtain ⟨out, hwr, hd, hle, -, -⟩ :=
    (combine_extends_video demoCombineEnv "v.mp4" "a.wav" "final.mp4" rfl rfl rfl).1
      (by norm_num [demoCombineEnv])
  refine ⟨out, hwr, ?_, hle⟩
  rw [hd]
  norm_num [demoCombineEnv]

/-- C8, counterexample: when `write_videofile` raises after the extended
clip was created, the `except` handler returns without closing anything:
the video, audio, final and extended handles are all still open at exit,
so the claim that every exit path releases all opened handles is false. -/
theorem combine_handles_leak_cex :
    (combine_video_with_audio_sync demoCombineEnvWriteRaises "v.mp4" "a.wav"
        "final.mp4").open_handles_at_exit =
      [.video, .audio, .finalClip, .extendedClip] ∧
    (combine_video_with_audio_sync demoCombineEnvWriteRaises "v.mp4" "a.wav"
        "final.mp4").open_handles_at_exit ≠ [] := by
  constructor
  · rfl
  · intro h
    rw [show (combine_video_with_audio_sync demoCombineEnvWriteRaises "v.mp4" "a.wav"
        "final.mp4").open_handles_at_exit =
      [.video, .audio, .finalClip, .extendedClip] from rfl] at h
    exact absurd h (by simp)

/-- C8, amended: all media handles opened during the call are explicitly
released after the output is written on the *successful* exit path,
including the extended clip when one was created; on the exception path
the handles opened before the exception are not released. -/
theorem combine_handle_release {F : Type} (env : CombineEnv F) (vp ap op : String) :
    (env.openVideoRaises = false → env.openAudioRaises = false → env.writeRaises = false →
      (combine_video_with_audio_sync env vp ap op).open_handles_at_exit = [] ∧
      (combine_video_with_audio_sync env vp ap op).written_output.isSome = true) ∧
    (env.openVideoRaises = false → env.openAudioRaises = false → env.writeRaises = true →
      MediaHandle.video ∈ (combine_video_with_audio_sync env vp ap op).open_handles_at_exit ∧
      MediaHandle.audio ∈ (combine_video_with_audio_sync env vp ap op).open_handles_at_exit ∧
      (combine_video_with_audio_sync env vp ap op).open_handles_at_exit ≠ []) := by
  constructor
  · intro hv ha hw
    simp only [combine_video_with_audio_sync, hv, ha, hw, Bool.false_eq_true, if_false]
    by_cases hgt : env.audio_duration > env.video.duration
    · rw [if_pos hgt]
      exact ⟨rfl, rfl⟩
    · rw [if_neg hgt]
      exact ⟨rfl, rfl⟩
  · intro hv ha hw
    simp only [combine_video_with_audio_sync, hv, ha, hw, Bool.false_eq_true, if_false, if_true]
    by_cases hgt : env.audio_duration > env.video.duration
    · rw [if_pos hgt]
      refine ⟨by simp, by simp, by simp⟩
    · rw [if_neg hgt]
      refine ⟨by simp, by simp, by simp⟩

/-- Evaluation of C8 (amended): the successful demo call closes all
handles; the same call with a raising write leaves the video handle
open. -/
theorem combine_handle_release_witness :
    (combine_video_with_audio_sync demoCombineEnv "v.mp4" "a.wav"
        "final.mp4").open_handles_at_exit = [] ∧
    MediaHandle.video ∈ (combine_video_with_audio_sync demoCombineEnvWriteRaises "v.mp4" "a.wav"
        "final.mp4").open_handles_at_exit := by
  exact ⟨((combine_handle_release demoCombineEnv "v.mp4" "a.wav" "final.mp4").1 rfl rfl rfl).1,
    ((combine_handle_release demoCombineEnvWriteRaises "v.mp4" "a.wav" "final.mp4").2
      rfl rfl rfl).1⟩

/-- C9: the compositor never propagates an exception: the call always
returns a path (the embedding is a total function), that path is either
the written `output_path` or the original `video_path`, and whenever any
internal step raises, it is the original silent `video_path` that is
returned and no output is written. -/
theorem combine_never_propagates {F : Type} (env : CombineEnv F) (vp ap op : String) :
    ((combine_video_with_audio_sync env vp ap op).returned_path = op ∨
      (combine_video_with_audio_sync env vp ap op).returned_path = vp) ∧
    (env.openVideoRaises = true ∨ env.openAudioRaises = true ∨ env.writeRaises = true →
      (combine_video_with_audio_sync env vp ap op).returned_path = vp ∧
      (combine_video_with_audio_sync env vp ap op).written_output = none) := by
  unfold combine_video_with_audio_sync
  by_cases hv : env.openVideoRaises = true
  · simp [hv]
  · rw [Bool.not_eq_true] at hv
    by_cases ha : env.openAudioRaises = true
    · simp [hv, ha]
    · rw [Bool.not_eq_true] at ha
      by_cases hw : env.writeRaises = true
      · by_cases hgt : env.audio_duration > env.video.duration <;>
          simp [hv, ha, hw, hgt]
      · rw [Bool.not_eq_true] at hw
        by_cases hgt : env.audio_duration > env.video.duration <;>
          simp [hv, ha, hw, hgt]

/-- Evaluation of C9: with a raising write step the call returns the
original video path as a value. -/
theorem combine_never_propagates_witness :
    (combine_video_with_audio_sync demoCombineEnvWriteRaises "v.mp4" "a.wav"
        "final.mp4").returned_path = "v.mp4" ∧
    (combine_video_with_audio_sync demoCombineEnvWriteRaises "v.mp4" "a.wav"
        "final.mp4").written_output = none :=
  (combine_never_propagates demoCombineEnvWriteRaises "v.mp4" "a.wav" "final.mp4").2
    (Or.inr (Or.inr rfl))

/-- C6: with no generative-video credential configured (absent, empty,
or the placeholder), the closing-clip generator takes the Manim fallback
path, and the temporary source file the fallback writes is absent from
the file system when the call returns, whatever the renderer's exit
code (the environment, including `manim_returncode`, is arbitrary). -/
theorem create_fallback_temp_deleted (env : VeoEnv) (st : VeoState) (output_path : String)
    (hout : output_path ≠ tempSourcePath) :
    tempSourcePath ∉ ((create_fallback_thank_you_clip env st output_path).2).files := by
  have hbase : tempSourcePath ∉
      (tempSourcePath :: st.files).filter (fun f => decide (f ≠ tempSourcePath)) := by
    intro hmem
    have h2 := (List.mem_filter.mp hmem).2
    simp at h2
  unfold create_fallback_thank_you_clip
  dsimp only
  split
  · split
    · intro hmem
      rcases List.mem_cons.mp hmem with h | h
      · exact hout h.symm
      · exact hbase (List.mem_filter.mp h).1
    · exact hbase
  · exact hbase

/-- C6: with no generative-video credential configured (absent, empty,
or the placeholder), the closing-clip generator takes the Manim fallback
path, and the temporary source file the fallback writes is absent from
the file system when the call returns, whatever the renderer's exit
code (the environment, including `manim_returncode`, is arbitrary). -/
theorem veo_fallback_temp_cleanup (env : VeoEnv) (st : VeoState) (output_path : String)
    (hkey : env.google_api_key = none ∨ env.google_api_key = some "" ∨
      env.google_api_key = some "your_google_api_key_here")
    (hout : output_path ≠ tempSourcePath) :
    generate_veo_thank_you_clip env st output_path =
      create_fallback_thank_you_clip env st output_path ∧
    tempSourcePath ∉ ((generate_veo_thank_you_clip env st output_path).2).files := by
  have hfb : generate_veo_thank_you_clip env st output_path =
      create_fallback_thank_you_clip env st output_path := by
    unfold generate_veo_thank_you_clip
    rcases hkey with h | h | h <;> rw [h] <;> simp
  refine ⟨hfb, ?_⟩
  rw [hfb]
  exact create_fallback_temp_deleted env st output_path hout

/-- Evaluation of C6: with no API key and a failing renderer (exit code
1) and also with a succeeding renderer (exit code 0), the fallback is
taken and the temporary source file is gone afterwards. -/
theorem veo_fallback_temp_cleanup_witness :
    (generate_veo_thank_you_clip demoVeoEnv ⟨[]⟩ "clips/thank_you_veo.mp4" =
      create_fallback_thank_you_clip demoVeoEnv ⟨[]⟩ "clips/thank_you_veo.mp4") ∧
    tempSourcePath ∉ ((generate_veo_thank_you_clip demoVeoEnv ⟨[]⟩
      "clips/thank_you_veo.mp4").2).files ∧
    tempSourcePath ∉ ((generate_veo_thank_you_clip { demoVeoEnv with manim_returncode := 0 }
      ⟨[]⟩ "clips/thank_you_veo.mp4").2).files := by
  have h1 := veo_fallback_temp_cleanup demoVeoEnv ⟨[]⟩ "clips/thank_you_veo.mp4"
    (Or.inl rfl) (by decide)
  have h2 := veo_fallback_temp_cleanup { demoVeoEnv with manim_returncode := 0 } ⟨[]⟩
    "clips/thank_you_veo.mp4" (Or.inl rfl) (by decide)
  exact ⟨h1.1, h1.2, h2.2⟩

end ManimVideo
